import Mathlib

/-!
Shallow embedding of the alert dashboard's client logic
(src/Frontend/src/pages/Logs.jsx, Alerts component; the AlertProvider
variant embedded in src/READme.md; the three normalizeURL copies) and
theorems checking the specification's claims against it.
-/

namespace Dashboard

/-- Alert record as consumed by the Alerts page: the fields used by the
realtime handlers, filters and statistics (spec §3). -/
structure Alert where
  id : Nat
  severity : String
  status : String
  category : String
  resource_name : String
  triggered_at : String
deriving DecidableEq, Repr

/-- Statistics kept by the Alerts page (`stats` state): active count plus
per-severity counts. -/
structure AlertStats where
  total_active : Nat
  low : Nat
  medium : Nat
  high : Nat
deriving DecidableEq, Repr

/-- Character-wise lowercasing, the model of JavaScript `toLowerCase()`
(written over the character list so that it evaluates by kernel
reduction). -/
def strLower (s : String) : String := String.mk (s.data.map Char.toLower)

/-- One step of the `data?.forEach(alert => ...)` loop inside `fetchStats`
(Logs.jsx): lowercase the fields, count `active` statuses, and count each
severity that is a key of the `severityCounts` object. -/
def statsStep (s : AlertStats) (a : Alert) : AlertStats :=
  let severity := strLower a.severity
  let status := strLower a.status
  let s1 := if status = "active" then { s with total_active := s.total_active + 1 } else s
  if severity = "low" then { s1 with low := s1.low + 1 }
  else if severity = "medium" then { s1 with medium := s1.medium + 1 }
  else if severity = "high" then { s1 with high := s1.high + 1 }
  else s1

/-- `fetchStats` (Logs.jsx lines 463-497): scan the entire alert collection
(the query has no filters and no range) and recompute the counters from
zero. -/
def fetchStats (coll : List Alert) : AlertStats :=
  coll.foldl statsStep { total_active := 0, low := 0, medium := 0, high := 0 }

/-- Filter state of the Alerts page (Logs.jsx): status/severity/category
dropdowns, resource-name substring, and a date range. -/
structure Filters where
  status : String
  severity : String
  category : String
  resource_name : String
  startDate : String
  endDate : String
deriving DecidableEq, Repr

/-- Does the char list `pat` occur at the start of `s`? (List-level model of
a JavaScript `startsWith`/anchored regex test.) -/
def listStartsWith : List Char → List Char → Bool
  | [], _ => true
  | _ :: _, [] => false
  | p :: ps, c :: cs => p = c && listStartsWith ps cs

/-- Does the char list `pat` occur contiguously anywhere in `s`? (List-level
model of JavaScript `String.prototype.includes`.) -/
def listContains : List Char → List Char → Bool
  | [], pat => pat.isEmpty
  | c :: rest, pat => listStartsWith pat (c :: rest) || listContains rest pat

/-- Lexicographic comparison of char lists: the order in which the database
compares ISO-8601 timestamp strings for `gte`/`lte` filters. -/
def charListLe : List Char → List Char → Bool
  | [], _ => true
  | _ :: _, [] => false
  | a :: as, b :: bs => if a = b then charListLe as bs else decide (a < b)

/-- Timestamp-string comparison used by the `gte`/`lte` query filters. -/
def tsLe (a b : String) : Bool := charListLe a.toList b.toList

/-- The `matchesFilters` predicate of the realtime INSERT handler
(Logs.jsx lines 581-585): status, severity and category must equal the
selected filter unless it is `ALL`, and the lowercased resource name must
contain the lowercased resource filter when one is set.  The date-range
filters are not consulted here. -/
def matchesFilters (f : Filters) (a : Alert) : Bool :=
  (f.status = "ALL" || a.status = f.status) &&
  (f.severity = "ALL" || a.severity = f.severity) &&
  (f.category = "ALL" || a.category = f.category) &&
  (f.resource_name = "" || listContains (strLower a.resource_name).toList (strLower f.resource_name).toList)

/-- The row predicate of the `fetchAlerts` query (Logs.jsx lines 516-534):
the same four filters plus the `triggered_at` date-range conditions
`gte startDateT00:00:00` and `lte endDateT23:59:59`. -/
def matchesQuery (f : Filters) (a : Alert) : Bool :=
  (f.status = "ALL" || a.status = f.status) &&
  (f.severity = "ALL" || a.severity = f.severity) &&
  (f.category = "ALL" || a.category = f.category) &&
  (f.resource_name = "" || listContains (strLower a.resource_name).toList (strLower f.resource_name).toList) &&
  (f.startDate = "" || tsLe (f.startDate ++ "T00:00:00") a.triggered_at) &&
  (f.endDate = "" || tsLe a.triggered_at (f.endDate ++ "T23:59:59"))

/-- Local state of the Alerts page relevant to the realtime handlers:
the visible list and the statistics. -/
structure ClientState where
  alerts : List Alert
  stats : AlertStats
deriving DecidableEq, Repr

/-- Realtime INSERT handler (Logs.jsx lines 574-593): prepend the new
record when it matches the active filters, then re-run `fetchStats` over
the collection.  No deduplication by id is performed. -/
def handleInsert (f : Filters) (s : ClientState) (coll : List Alert) (newAlert : Alert) : ClientState :=
  { alerts := if matchesFilters f newAlert then newAlert :: s.alerts else s.alerts
    stats := fetchStats coll }

/-- The `setAlerts(prev => prev.map(...))` of the realtime UPDATE handler
(Logs.jsx lines 606-610): overwrite the entry whose id matches the event's
record, leave all others as they are. -/
def applyUpdate (l : List Alert) (u : Alert) : List Alert :=
  l.map (fun a => if a.id = u.id then u else a)

/-- Realtime UPDATE handler (Logs.jsx lines 602-614): apply the by-id
overwrite and re-run `fetchStats` over the collection. -/
def handleUpdate (s : ClientState) (coll : List Alert) (u : Alert) : ClientState :=
  { alerts := applyUpdate s.alerts u
    stats := fetchStats coll }

/-- A resolved alert sitting in the local list. -/
def exResolved : Alert :=
  { id := 1, severity := "high", status := "resolved", category := "node_health",
    resource_name := "node-a", triggered_at := "2026-01-01T10:00:00" }

/-- An UPDATE event for the same id whose record carries status `active`. -/
def exRevert : Alert :=
  { id := 1, severity := "high", status := "active", category := "node_health",
    resource_name := "node-a", triggered_at := "2026-01-01T10:00:00" }

/-- An unrelated `active` alert with a different id, used as a bystander
record in concrete instances. -/
def exActive2 : Alert :=
  { id := 2, severity := "low", status := "active", category := "vm_status",
    resource_name := "vm-7", triggered_at := "2026-01-02T09:00:00" }

/-- The filter state with every filter inactive except the default ones:
all dropdowns on `ALL`, empty resource substring, empty date range. -/
def fAll : Filters :=
  { status := "ALL", severity := "ALL", category := "ALL",
    resource_name := "", startDate := "", endDate := "" }

/-- Kind of a rendered toast notification (react-toastify call used). -/
inductive ToastKind
  | error
  | warning
  | info
deriving DecidableEq, Repr

/-- A rendered toast: which call was made and its `autoClose` setting —
`none` models `autoClose: false` (stays until dismissed), `some n` an
auto-dismiss after `n` milliseconds. -/
structure Toast where
  kind : ToastKind
  autoClose : Option Nat
deriving DecidableEq, Repr

/-- `showAlertToast` of the Alerts page (Logs.jsx lines 633-672): lowercase
the severity, return early (no toast) unless it is `medium` or `high`;
`high` renders `toast.error` with `autoClose: false`, `medium` renders
`toast.warning` with `autoClose: 8000`. -/
def showAlertToast (a : Alert) : Option Toast :=
  let severity := strLower a.severity
  if severity ≠ "medium" ∧ severity ≠ "high" then none
  else if severity = "high" then some { kind := ToastKind.error, autoClose := none }
  else if severity = "medium" then some { kind := ToastKind.warning, autoClose := some 8000 }
  else none

/-- `showAlertToast` of the AlertProvider (READme.md lines 192-230): no
early return and no lowercasing; `high` renders a persistent `toast.error`,
`medium` a `toast.warning` with `autoClose: 8000`, and everything else —
including `low` — a `toast.info` with `autoClose: 5000`. -/
def showAlertToastProvider (a : Alert) : Toast :=
  if a.severity = "high" then { kind := ToastKind.error, autoClose := none }
  else if a.severity = "medium" then { kind := ToastKind.warning, autoClose := some 8000 }
  else { kind := ToastKind.info, autoClose := some 5000 }

/-- Error taxonomy of the alert endpoints (spec §7). -/
inductive AlertError
  | NotFoundError
  | InvalidTransitionError
deriving DecidableEq, Repr

/-- Modelled from the spec: the backend acknowledge endpoint
(`POST /alerts/id/acknowledge`) is not part of src/ (only its caller in
READme.md is).  Spec §4.1: valid only from `active`, moving the record to
`acknowledged`; `NotFoundError` for an unknown id, `InvalidTransitionError`
otherwise (already terminal or already acknowledged, §8). -/
def backendAcknowledge (coll : List Alert) (alertId : Nat) : Except AlertError (List Alert) :=
  match coll.find? (fun a => a.id == alertId) with
  | none => Except.error AlertError.NotFoundError
  | some a =>
      if a.status = "active" then
        Except.ok (coll.map (fun b =>
          if b.id = alertId then { b with status := "acknowledged" } else b))
      else Except.error AlertError.InvalidTransitionError

/-- Modelled from the spec: the backend resolve endpoint
(`POST /alerts/id/resolve`), spec §4.1: valid from `active` or
`acknowledged`, moving the record to `resolved`; same failure modes. -/
def backendResolve (coll : List Alert) (alertId : Nat) : Except AlertError (List Alert) :=
  match coll.find? (fun a => a.id == alertId) with
  | none => Except.error AlertError.NotFoundError
  | some a =>
      if a.status = "active" ∨ a.status = "acknowledged" then
        Except.ok (coll.map (fun b =>
          if b.id = alertId then { b with status := "resolved" } else b))
      else Except.error AlertError.InvalidTransitionError

/-- Stored collection after an acknowledge request: a failed request leaves
every record as it was. -/
def serverAfterAcknowledge (coll : List Alert) (alertId : Nat) : List Alert :=
  match backendAcknowledge coll alertId with
  | Except.ok c => c
  | Except.error _ => coll

/-- Statistics shape held by the AlertProvider (READme.md). -/
structure ProviderStats where
  total_active : Nat
  total_acknowledged : Nat
  total_resolved : Nat
  low : Nat
  medium : Nat
  high : Nat
deriving DecidableEq, Repr

/-- Local state of the AlertProvider: alerts list and statistics. -/
structure ProviderState where
  alerts : List Alert
  alertStats : ProviderStats
deriving DecidableEq, Repr

/-- Outcome of the `fetch` call as the client observes it: a success
response (`response.ok`), a non-success response, or a thrown request. -/
inductive FetchResult
  | ok
  | httpError
  | thrown
deriving DecidableEq, Repr

/-- `acknowledgeAlert` (READme.md lines 124-156): POST the request; only on
a success response refetch the alerts list and the statistics and return
`true`; on a non-success response or a thrown request return `false`
without touching local state. -/
def acknowledgeAlert (s : ProviderState) (resp : FetchResult)
    (refetchedAlerts : List Alert) (refetchedStats : ProviderStats) : Bool × ProviderState :=
  match resp with
  | FetchResult.ok => (true, { alerts := refetchedAlerts, alertStats := refetchedStats })
  | FetchResult.httpError => (false, s)
  | FetchResult.thrown => (false, s)

/-- `resolveAlert` (READme.md lines 158-190): same control flow as
`acknowledgeAlert` against the resolve endpoint. -/
def resolveAlert (s : ProviderState) (resp : FetchResult)
    (refetchedAlerts : List Alert) (refetchedStats : ProviderStats) : Bool × ProviderState :=
  match resp with
  | FetchResult.ok => (true, { alerts := refetchedAlerts, alertStats := refetchedStats })
  | FetchResult.httpError => (false, s)
  | FetchResult.thrown => (false, s)

/-- Empty provider statistics, for concrete instances. -/
def pstats0 : ProviderStats :=
  { total_active := 0, total_acknowledged := 0, total_resolved := 0,
    low := 0, medium := 0, high := 0 }

/-- A record triggered before the date-range filter below. -/
def exOld : Alert :=
  { id := 3, severity := "medium", status := "active", category := "vm_resource",
    resource_name := "vm-9", triggered_at := "2026-01-01T12:00:00" }

/-- Filters with only the start-date filter active. -/
def fDate : Filters :=
  { status := "ALL", severity := "ALL", category := "ALL",
    resource_name := "", startDate := "2026-01-02", endDate := "" }

/-- Pagination page size of the Alerts (and Logs) page. -/
def PAGE_SIZE : Nat := 50

/-- Pagination-relevant state of the Alerts page: current page, the
accumulated list, and the has-more flag. -/
structure PageState where
  page : Nat
  alerts : List Alert
  hasMore : Bool
deriving DecidableEq, Repr

/-- The supabase `.range(lo, hi)` slice: rows `lo` to `hi` inclusive of the
ordered, filtered query result. -/
def queryRange (rows : List Alert) (lo hi : Nat) : List Alert :=
  (rows.drop lo).take (hi - lo + 1)

/-- `fetchAlerts` (Logs.jsx lines 500-555), restricted to its pagination
effect: compute the row range from `reset ? 0 : page`, fetch that slice,
and either replace the list (resetting the page to 0) or append the slice;
`hasMore` records whether a full page arrived.  Returns the new state
together with the issued row range. -/
def fetchAlerts (reset : Bool) (s : PageState) (rows : List Alert) : PageState × (Nat × Nat) :=
  let currentPage := if reset then 0 else s.page
  let lo := currentPage * PAGE_SIZE
  let hi := lo + PAGE_SIZE - 1
  let data := queryRange rows lo hi
  if reset then
    ({ page := 0, alerts := data, hasMore := data.length = PAGE_SIZE }, (lo, hi))
  else
    ({ page := s.page, alerts := s.alerts ++ data, hasMore := data.length = PAGE_SIZE }, (lo, hi))

/-- `handleLoadMore` (Logs.jsx lines 627-630): `setPage(prev => prev + 1)`
queues a page increment for the next render while `fetchAlerts(false)` runs
with the current render's `page` value, so the fetch issued by this call
still uses the old page number. -/
def handleLoadMore (s : PageState) (rows : List Alert) : PageState × (Nat × Nat) :=
  let r := fetchAlerts false s rows
  ({ r.1 with page := s.page + 1 }, r.2)

/-- State of the Alerts page before the initial load. -/
def initialPageState : PageState := { page := 0, alerts := [], hasMore := true }

/-- Whitespace test used by the embedding of JavaScript `trim()`. -/
def isWs (c : Char) : Bool := c.isWhitespace

/-- JavaScript `String.prototype.trim` over the character list: drop
whitespace from the front, then from the back. -/
def jsTrim (s : List Char) : List Char :=
  ((s.dropWhile isWs).reverse.dropWhile isWs).reverse

/-- The scheme test of `normalizeURL` (a case-insensitive anchored regex
for `http://` or `https://`): the lowercased string begins with `http://`
or `https://`. -/
def startsHttp (s : List Char) : Bool :=
  listStartsWith "http://".toList (s.map Char.toLower) ||
  listStartsWith "https://".toList (s.map Char.toLower)

/-- `normalizeURL` as written in src/unnamed/part_000 lines 36-43: empty
result for an empty or whitespace-only input, otherwise the trimmed input,
prefixed with `https://` when it does not already start with a scheme. -/
def normalizeURL (url : List Char) : List Char :=
  if jsTrim url = [] then []
  else if startsHttp (jsTrim url) then jsTrim url
  else "https://".toList ++ jsTrim url

/-- The second copy of `normalizeURL` (src/unnamed/part_002 lines 21-28);
its body is the same code up to the local variable name. -/
def normalizeURL2 (url : List Char) : List Char :=
  if jsTrim url = [] then []
  else if startsHttp (jsTrim url) then jsTrim url
  else "https://".toList ++ jsTrim url

/-- The third copy of `normalizeURL`
(src/Frontend/src/pages/Home.jsx lines 197-204); same code again. -/
def normalizeURL3 (url : List Char) : List Char :=
  if jsTrim url = [] then []
  else if startsHttp (jsTrim url) then jsTrim url
  else "https://".toList ++ jsTrim url

/-- C1 counterexample: the realtime UPDATE handler overwrites by id
unconditionally, so delivering an UPDATE event whose record carries status
`active` for an alert whose local copy is `resolved` puts that record back
to `active` in the local list. -/
theorem update_handler_reverts_resolved_to_active :
    exResolved.status = "resolved" ∧ exRevert.id = exResolved.id ∧
    applyUpdate [exResolved] exRevert = [exRevert] ∧ exRevert.status = "active" := by
  refine ⟨rfl, rfl, ?_, rfl⟩
  decide

/-- C1 amended: the UPDATE handler applies the event's record verbatim, so
a record can only become `active` if the delivered event itself carries
status `active`; whenever the event's status is not `active`, every entry
of the resulting list that has status `active` was already present with
status `active` before the event. -/
theorem update_handler_no_spontaneous_active (l : List Alert) (u : Alert)
    (hu : u.status ≠ "active") :
    ∀ a ∈ applyUpdate l u, a.status = "active" → a ∈ l ∧ a.status = "active" := by
  intro a ha hact
  rcases List.mem_map.1 ha with ⟨b, hb, hba⟩
  by_cases h : b.id = u.id
  · rw [if_pos h] at hba
    subst hba
    exact absurd hact hu
  · rw [if_neg h] at hba
    subst hba
    exact ⟨hb, hact⟩

/-- Concrete instance of the amended C1 theorem: a non-`active` UPDATE event
for id 1 leaves the `active` entry with id 2 both present and accounted for
by its pre-state. -/
theorem update_handler_no_spontaneous_active_witness :
    exActive2 ∈ ([exActive2] : List Alert) ∧ exActive2.status = "active" := by
  have h := update_handler_no_spontaneous_active [exActive2] exResolved (by decide)
  exact h _ (by decide) rfl

/-- Component values of one `statsStep`: `total_active` follows the status
test alone. -/
theorem statsStep_total_active (s : AlertStats) (a : Alert) :
    (statsStep s a).total_active
      = if strLower a.status = "active" then s.total_active + 1 else s.total_active := by
  simp only [statsStep]
  split_ifs <;> simp_all

/-- Component values of one `statsStep`: `low` follows the severity test. -/
theorem statsStep_low (s : AlertStats) (a : Alert) :
    (statsStep s a).low = if strLower a.severity = "low" then s.low + 1 else s.low := by
  simp only [statsStep]
  split_ifs <;> simp_all

/-- Component values of one `statsStep`: `medium` follows the severity test. -/
theorem statsStep_medium (s : AlertStats) (a : Alert) :
    (statsStep s a).medium = if strLower a.severity = "medium" then s.medium + 1 else s.medium := by
  simp only [statsStep]
  split_ifs <;> simp_all

/-- Component values of one `statsStep`: `high` follows the severity test. -/
theorem statsStep_high (s : AlertStats) (a : Alert) :
    (statsStep s a).high = if strLower a.severity = "high" then s.high + 1 else s.high := by
  simp only [statsStep]
  split_ifs <;> simp_all

/-- Folding `statsStep` over a collection adds the corresponding `countP`
to each counter of the accumulator. -/
theorem foldl_statsStep_counts (coll : List Alert) : ∀ s : AlertStats,
    (coll.foldl statsStep s).total_active
        = s.total_active + coll.countP (fun a => strLower a.status = "active") ∧
    (coll.foldl statsStep s).low = s.low + coll.countP (fun a => strLower a.severity = "low") ∧
    (coll.foldl statsStep s).medium
        = s.medium + coll.countP (fun a => strLower a.severity = "medium") ∧
    (coll.foldl statsStep s).high = s.high + coll.countP (fun a => strLower a.severity = "high") := by
  induction coll with
  | nil => intro s; simp
  | cons a t ih =>
    intro s
    obtain ⟨h1, h2, h3, h4⟩ := ih (statsStep s a)
    refine ⟨?_, ?_, ?_, ?_⟩
    · rw [List.foldl_cons, List.countP_cons, h1, statsStep_total_active]
      by_cases hc : strLower a.status = "active" <;> (simp [hc]; try omega)
    · rw [List.foldl_cons, List.countP_cons, h2, statsStep_low]
      by_cases hc : strLower a.severity = "low" <;> (simp [hc]; try omega)
    · rw [List.foldl_cons, List.countP_cons, h3, statsStep_medium]
      by_cases hc : strLower a.severity = "medium" <;> (simp [hc]; try omega)
    · rw [List.foldl_cons, List.countP_cons, h4, statsStep_high]
      by_cases hc : strLower a.severity = "high" <;> (simp [hc]; try omega)

/-- C2: after `fetchStats` runs over the alert collection, `total_active`
is the number of records whose lowercased status is `active` over the whole
collection (no filter is applied), `by_severity` counts every record of
each of the three severities regardless of status, and both realtime
handlers (INSERT and UPDATE) recompute the statistics from the collection. -/
theorem fetchStats_counts (coll : List Alert) (f : Filters) (s : ClientState) (r u : Alert) :
    (fetchStats coll).total_active = coll.countP (fun a => strLower a.status = "active") ∧
    (fetchStats coll).low = coll.countP (fun a => strLower a.severity = "low") ∧
    (fetchStats coll).medium = coll.countP (fun a => strLower a.severity = "medium") ∧
    (fetchStats coll).high = coll.countP (fun a => strLower a.severity = "high") ∧
    (handleInsert f s coll r).stats = fetchStats coll ∧
    (handleUpdate s coll u).stats = fetchStats coll := by
  obtain ⟨h1, h2, h3, h4⟩ :=
    foldl_statsStep_counts coll { total_active := 0, low := 0, medium := 0, high := 0 }
  refine ⟨?_, ?_, ?_, ?_, rfl, rfl⟩
  · simpa [fetchStats] using h1
  · simpa [fetchStats] using h2
  · simpa [fetchStats] using h3
  · simpa [fetchStats] using h4

/-- C3 counterexample: the INSERT handler prepends unconditionally, so
delivering the same insert event twice for id 1 leaves two entries carrying
that id in the local list — no deduplication happens. -/
theorem insert_handler_duplicates :
    (handleInsert fAll (handleInsert fAll { alerts := [], stats := fetchStats [] } [] exRevert)
        [] exRevert).alerts = [exRevert, exRevert] ∧
    (handleInsert fAll (handleInsert fAll { alerts := [], stats := fetchStats [] } [] exRevert)
        [] exRevert).alerts.countP (fun a => a.id = 1) = 2 := by
  constructor <;> decide

/-- C3 amended: delivering the same insert event twice for an alert that
matches the active filters appends the record once per delivery, so the
number of entries carrying its id grows by exactly two. -/
theorem insert_handler_appends_per_delivery (f : Filters) (s : ClientState)
    (coll : List Alert) (r : Alert) (h : matchesFilters f r = true) :
    (handleInsert f (handleInsert f s coll r) coll r).alerts.countP (fun a => a.id = r.id)
      = s.alerts.countP (fun a => a.id = r.id) + 2 := by
  simp [handleInsert, h, List.countP_cons]

/-- Concrete instance of the amended C3 theorem, two deliveries of the same
event into an empty list. -/
theorem insert_handler_appends_per_delivery_witness :
    (handleInsert fAll (handleInsert fAll { alerts := [], stats := fetchStats [] } [] exRevert)
        [] exRevert).alerts.countP (fun a => a.id = exRevert.id)
      = ({ alerts := [], stats := fetchStats [] } : ClientState).alerts.countP
          (fun a => a.id = exRevert.id) + 2 :=
  insert_handler_appends_per_delivery fAll { alerts := [], stats := fetchStats [] } [] exRevert
    (by decide)

/-- C7: the realtime UPDATE handler is idempotent with respect to duplicate
delivery — applying the same update event twice yields exactly the state of
applying it once, because the handler overwrites the matching entry by id. -/
theorem update_handler_idempotent (s : ClientState) (coll : List Alert) (u : Alert) :
    handleUpdate (handleUpdate s coll u) coll u = handleUpdate s coll u := by
  unfold handleUpdate applyUpdate
  congr 1
  rw [List.map_map]
  apply List.map_congr_left
  intro a _
  by_cases h : a.id = u.id
  · simp [Function.comp, h]
  · simp [Function.comp, h]

/-- C8: processing an UPDATE event changes only the entry whose id matches
the event's record: the length never grows (an update never inserts), every
entry at a position whose id differs is returned unchanged at the same
position, every entry of the result comes from the old list or is the
event's record, and when no entry carries the event's id the list is
unchanged. -/
theorem update_handler_frame_effect (l : List Alert) (u : Alert) :
    (applyUpdate l u).length = l.length ∧
    (∀ (i : Nat) (a : Alert), l[i]? = some a → a.id ≠ u.id → (applyUpdate l u)[i]? = some a) ∧
    (∀ a ∈ applyUpdate l u, a ∈ l ∨ a = u) ∧
    ((∀ a ∈ l, a.id ≠ u.id) → applyUpdate l u = l) := by
  refine ⟨by simp [applyUpdate], ?_, ?_, ?_⟩
  · intro i a h hne
    simp [applyUpdate, List.getElem?_map, h, if_neg hne]
  · intro a ha
    rcases List.mem_map.1 ha with ⟨b, hb, hba⟩
    by_cases h : b.id = u.id
    · rw [if_pos h] at hba
      exact Or.inr hba.symm
    · rw [if_neg h] at hba
      exact Or.inl (hba ▸ hb)
  · intro h
    have heq : ∀ a ∈ l, (if a.id = u.id then u else a) = id a := by
      intro a ha
      simp [if_neg (h a ha)]
    rw [applyUpdate, List.map_congr_left heq, List.map_id]

/-- Concrete instance of the C8 frame theorem: an update event whose id
matches nothing leaves the list untouched. -/
theorem update_handler_frame_effect_witness :
    applyUpdate [exResolved] exActive2 = [exResolved] :=
  (update_handler_frame_effect [exResolved] exActive2).2.2.2 (by decide)

/-- C4 counterexample: the AlertProvider notification renderer does not
suppress `low` severity — it renders an info toast auto-dismissing after
5000 ms for the low-severity record `exActive2`. -/
theorem provider_renders_toast_for_low :
    exActive2.severity = "low" ∧
    showAlertToastProvider exActive2 = { kind := ToastKind.info, autoClose := some 5000 } := by
  exact ⟨rfl, rfl⟩

/-- C4 amended: the Alerts page renderer suppresses `low` (and any unknown)
severity, auto-dismisses `medium` after a fixed 8000 ms and keeps `high`
until dismissed; the AlertProvider renderer does the same for `medium` and
`high` but shows an auto-dismissing info notification for `low`. -/
theorem severity_toast_policy (a : Alert) :
    (strLower a.severity ≠ "medium" ∧ strLower a.severity ≠ "high" → showAlertToast a = none) ∧
    (strLower a.severity = "medium" →
      showAlertToast a = some { kind := ToastKind.warning, autoClose := some 8000 }) ∧
    (strLower a.severity = "high" →
      showAlertToast a = some { kind := ToastKind.error, autoClose := none }) ∧
    (a.severity = "low" →
      showAlertToastProvider a = { kind := ToastKind.info, autoClose := some 5000 }) ∧
    (a.severity = "medium" →
      showAlertToastProvider a = { kind := ToastKind.warning, autoClose := some 8000 }) ∧
    (a.severity = "high" →
      showAlertToastProvider a = { kind := ToastKind.error, autoClose := none }) := by
  refine ⟨?_, ?_, ?_, ?_, ?_, ?_⟩ <;> intro h <;>
    simp_all [showAlertToast, showAlertToastProvider]

/-- Concrete instances of the toast policy: the low-severity record is
suppressed by the Alerts page renderer, and the high-severity record gets a
persistent error toast from the provider renderer. -/
theorem severity_toast_policy_witness :
    showAlertToast exActive2 = none ∧
    showAlertToastProvider exRevert = { kind := ToastKind.error, autoClose := none } :=
  ⟨(severity_toast_policy exActive2).1 (by decide),
   (severity_toast_policy exRevert).2.2.2.2.2 (by decide)⟩

/-- C5: a non-success response (or a thrown request) makes
`acknowledgeAlert` and `resolveAlert` return `false` and leave the local
alerts list and statistics exactly as they were — local state is refetched
only on a success response; and acknowledging an already-`resolved` alert
fails with `InvalidTransitionError` and does not mutate the stored
records. -/
theorem failed_transition_leaves_state (s : ProviderState) (resp : FetchResult)
    (ra : List Alert) (rs : ProviderStats) (coll : List Alert) (alertId : Nat) (a : Alert) :
    (resp ≠ FetchResult.ok →
      acknowledgeAlert s resp ra rs = (false, s) ∧ resolveAlert s resp ra rs = (false, s)) ∧
    (coll.find? (fun b => b.id == alertId) = some a → a.status = "resolved" →
      backendAcknowledge coll alertId = Except.error AlertError.InvalidTransitionError ∧
      serverAfterAcknowledge coll alertId = coll) := by
  constructor
  · intro h
    cases resp with
    | ok => exact absurd rfl h
    | httpError => exact ⟨rfl, rfl⟩
    | thrown => exact ⟨rfl, rfl⟩
  · intro hf hs
    have herr : backendAcknowledge coll alertId = Except.error AlertError.InvalidTransitionError := by
      simp [backendAcknowledge, hf, hs]
    refine ⟨herr, ?_⟩
    unfold serverAfterAcknowledge
    rw [herr]

/-- Concrete instance of the C5 theorem: a non-success acknowledge leaves a
concrete provider state untouched, and acknowledging the resolved record
with id 1 is an invalid transition that mutates nothing. -/
theorem failed_transition_leaves_state_witness :
    (acknowledgeAlert { alerts := [exResolved], alertStats := pstats0 } FetchResult.httpError [] pstats0
        = (false, { alerts := [exResolved], alertStats := pstats0 }) ∧
      resolveAlert { alerts := [exResolved], alertStats := pstats0 } FetchResult.httpError [] pstats0
        = (false, { alerts := [exResolved], alertStats := pstats0 })) ∧
    (backendAcknowledge [exResolved] 1 = Except.error AlertError.InvalidTransitionError ∧
      serverAfterAcknowledge [exResolved] 1 = [exResolved]) :=
  ⟨(failed_transition_leaves_state { alerts := [exResolved], alertStats := pstats0 }
      FetchResult.httpError [] pstats0 [exResolved] 1 exResolved).1 (by decide),
   (failed_transition_leaves_state { alerts := [exResolved], alertStats := pstats0 }
      FetchResult.httpError [] pstats0 [exResolved] 1 exResolved).2 (by decide) rfl⟩

/-- C6 counterexample: with a start-date filter active, the record `exOld`
fails the query's date condition, yet the INSERT handler still admits it
into the visible list — the handler never consults the date filters. -/
theorem insert_handler_ignores_date_filter :
    matchesQuery fDate exOld = false ∧
    matchesFilters fDate exOld = true ∧
    (handleInsert fDate { alerts := [], stats := fetchStats [] } [] exOld).alerts = [exOld] := by
  refine ⟨by decide, by decide, by decide⟩

/-- C6 amended: the INSERT handler admits a record into the visible list
exactly according to the status, severity, category and resource-substring
filters; the date-range filters play no role in admission — changing them
never changes the resulting list. -/
theorem insert_admission_ignores_dates (f : Filters) (s : ClientState)
    (coll : List Alert) (r : Alert) (sd ed : String) :
    (handleInsert { f with startDate := sd, endDate := ed } s coll r).alerts
      = (handleInsert f s coll r).alerts ∧
    (matchesFilters f r = true → (handleInsert f s coll r).alerts = r :: s.alerts) ∧
    (matchesFilters f r = false → (handleInsert f s coll r).alerts = s.alerts) := by
  refine ⟨rfl, ?_, ?_⟩
  · intro h
    simp [handleInsert, h]
  · intro h
    simp [handleInsert, h]

/-- Concrete instance of the amended C6 theorem: a matching record is
prepended under any date filters. -/
theorem insert_admission_ignores_dates_witness :
    (handleInsert fAll { alerts := [], stats := fetchStats [] } [] exOld).alerts = [exOld] :=
  (insert_admission_ignores_dates fAll { alerts := [], stats := fetchStats [] } [] exOld
    "" "").2.1 (by decide)

/-- C10: immediately after the initial load (a reset fetch of rows 0-49),
`handleLoadMore` issues a fetch for the same row range 0-49 and appends the
fetched slice to the list, so the first page's records appear twice; only
the page number stored for subsequent renders becomes 1, and only the next
invocation fetches rows 50-99. -/
theorem load_more_refetches_first_page (rows : List Alert) :
    (fetchAlerts true initialPageState rows).2 = (0, 49) ∧
    (fetchAlerts true initialPageState rows).1.alerts = queryRange rows 0 49 ∧
    (handleLoadMore (fetchAlerts true initialPageState rows).1 rows).2 = (0, 49) ∧
    (handleLoadMore (fetchAlerts true initialPageState rows).1 rows).1.alerts
      = queryRange rows 0 49 ++ queryRange rows 0 49 ∧
    (handleLoadMore (fetchAlerts true initialPageState rows).1 rows).1.page = 1 ∧
    (handleLoadMore (handleLoadMore (fetchAlerts true initialPageState rows).1 rows).1 rows).2
      = (50, 99) := by
  refine ⟨rfl, rfl, rfl, rfl, rfl, rfl⟩

/-- A `dropWhile` that returns a cons starts with an element failing the
predicate. -/
theorem dropWhile_head_not (l : List Char) (c : Char)
    (h : (l.dropWhile isWs).head? = some c) : isWs c = false := by
  induction l with
  | nil => simp at h
  | cons a t ih =>
    rw [List.dropWhile_cons] at h
    by_cases hp : isWs a = true
    · rw [if_pos hp] at h
      exact ih h
    · rw [if_neg hp] at h
      rw [List.head?_cons, Option.some_inj] at h
      subst h
      exact Bool.eq_false_iff.mpr hp

/-- A nonempty `dropWhile` keeps the last element of the list. -/
theorem getLast?_dropWhile (l : List Char) (h : l.dropWhile isWs ≠ []) :
    (l.dropWhile isWs).getLast? = l.getLast? := by
  induction l with
  | nil => simp at h
  | cons a t ih =>
    rw [List.dropWhile_cons] at h ⊢
    by_cases hp : isWs a = true
    · rw [if_pos hp] at h ⊢
      rw [ih h]
      have ht : t ≠ [] := by
        intro he
        rw [he] at h
        simp at h
      cases t with
      | nil => exact absurd rfl ht
      | cons b bs => rw [List.getLast?_cons_cons]
    · rw [if_neg hp]

/-- A list whose head fails the whitespace test is unchanged by
`dropWhile`. -/
theorem dropWhile_eq_self_of_head (l : List Char)
    (h : ∀ c, l.head? = some c → isWs c = false) : l.dropWhile isWs = l := by
  cases l with
  | nil => rfl
  | cons a t =>
    rw [List.dropWhile_cons, if_neg]
    simp [h a rfl]

/-- `jsTrim` produces the empty list exactly on whitespace-only input. -/
theorem jsTrim_eq_nil_iff (s : List Char) :
    jsTrim s = [] ↔ ∀ c ∈ s, isWs c = true := by
  unfold jsTrim
  rw [List.reverse_eq_nil_iff, List.dropWhile_eq_nil_iff]
  constructor
  · intro h c hc
    rw [← List.takeWhile_append_dropWhile isWs s] at hc
    rcases List.mem_append.1 hc with hc | hc
    · exact List.mem_takeWhile_imp hc
    · exact h c (List.mem_reverse.2 hc)
  · intro h c hc
    exact h c ((List.dropWhile_sublist isWs).mem (List.mem_reverse.1 hc))

/-- The head of a `jsTrim` result is never whitespace. -/
theorem jsTrim_head_not (s : List Char) (c : Char)
    (h : (jsTrim s).head? = some c) : isWs c = false := by
  unfold jsTrim at h
  rw [List.head?_reverse] at h
  have hne : (s.dropWhile isWs).reverse.dropWhile isWs ≠ [] := by
    intro he
    rw [he] at h
    simp at h
  rw [getLast?_dropWhile _ hne, List.getLast?_reverse] at h
  exact dropWhile_head_not s c h

/-- The last element of a `jsTrim` result is never whitespace. -/
theorem jsTrim_last_not (s : List Char) (c : Char)
    (h : (jsTrim s).getLast? = some c) : isWs c = false := by
  unfold jsTrim at h
  rw [List.getLast?_reverse] at h
  exact dropWhile_head_not _ c h

/-- A list whose head and last element both fail the whitespace test is a
fixed point of `jsTrim`. -/
theorem jsTrim_fixed (r : List Char)
    (h1 : ∀ c, r.head? = some c → isWs c = false)
    (h2 : ∀ c, r.getLast? = some c → isWs c = false) : jsTrim r = r := by
  unfold jsTrim
  rw [dropWhile_eq_self_of_head r h1]
  rw [dropWhile_eq_self_of_head r.reverse]
  · exact List.reverse_reverse r
  · intro c hc
    rw [List.head?_reverse] at hc
    exact h2 c hc

/-- `jsTrim` is idempotent. -/
theorem jsTrim_idem (s : List Char) : jsTrim (jsTrim s) = jsTrim s := by
  by_cases h : jsTrim s = []
  · rw [h]
    rfl
  · exact jsTrim_fixed _ (fun c hc => jsTrim_head_not s c hc)
      (fun c hc => jsTrim_last_not s c hc)

/-- `listStartsWith` holds for a pattern followed by anything. -/
theorem listStartsWith_append (x rest : List Char) :
    listStartsWith x (x ++ rest) = true := by
  induction x with
  | nil => rfl
  | cons a t ih => simp [listStartsWith, ih]

/-- Prepending `https://` always yields a scheme-carrying string. -/
theorem startsHttp_append (t : List Char) :
    startsHttp ("https://".toList ++ t) = true := by
  unfold startsHttp
  rw [List.map_append]
  have hmap : ("https://".toList).map Char.toLower = "https://".toList := by decide
  rw [hmap, listStartsWith_append]
  exact Bool.or_true _

/-- `jsTrim` fixes the `https://`-prefixed trim of any input with a
nonempty trim. -/
theorem jsTrim_append_https (s : List Char) (hne : jsTrim s ≠ []) :
    jsTrim ("https://".toList ++ jsTrim s) = "https://".toList ++ jsTrim s := by
  apply jsTrim_fixed
  · intro c hc
    rw [show ("https://".toList ++ jsTrim s) = 'h' :: ("ttps://".toList ++ jsTrim s) from rfl,
      List.head?_cons, Option.some_inj] at hc
    subst hc
    decide
  · intro c hc
    rw [List.getLast?_append] at hc
    cases hx : (jsTrim s).getLast? with
    | none =>
      rw [List.getLast?_eq_none_iff] at hx
      exact absurd hx hne
    | some x =>
      rw [hx] at hc
      rw [show (Option.some x).or "https://".toList.getLast? = some x from rfl,
        Option.some_inj] at hc
      subst hc
      exact jsTrim_last_not s x hx

/-- C9: `normalizeURL` returns the empty string exactly on empty or
whitespace-only input; on any other input the result starts with `http://`
or `https://` up to case; the function is idempotent; and the three copies
in the repository compute the same function. -/
theorem normalizeURL_spec (url : List Char) :
    (normalizeURL url = [] ↔ ∀ c ∈ url, isWs c = true) ∧
    ((¬ ∀ c ∈ url, isWs c = true) → startsHttp (normalizeURL url) = true) ∧
    normalizeURL (normalizeURL url) = normalizeURL url ∧
    normalizeURL2 url = normalizeURL url ∧
    normalizeURL3 url = normalizeURL url := by
  refine ⟨?_, ?_, ?_, rfl, rfl⟩
  all_goals by_cases h0 : jsTrim url = []
  · rw [show normalizeURL url = [] from by rw [normalizeURL, if_pos h0]]
    exact iff_of_true rfl ((jsTrim_eq_nil_iff url).1 h0)
  · constructor
    · intro he
      exfalso
      rw [normalizeURL, if_neg h0] at he
      by_cases hp : startsHttp (jsTrim url) = true
      · rw [if_pos hp] at he
        exact h0 he
      · rw [if_neg hp] at he
        simp at he
    · intro hws
      exact absurd ((jsTrim_eq_nil_iff url).2 hws) h0
  · intro hn
    exact absurd ((jsTrim_eq_nil_iff url).1 h0) hn
  · intro hn
    rw [normalizeURL, if_neg h0]
    by_cases hp : startsHttp (jsTrim url) = true
    · rw [if_pos hp]
      exact hp
    · rw [if_neg hp]
      exact startsHttp_append (jsTrim url)
  · rw [show normalizeURL url = [] from by rw [normalizeURL, if_pos h0]]
    rfl
  · have hr : normalizeURL url
        = if startsHttp (jsTrim url) then jsTrim url else "https://".toList ++ jsTrim url := by
      rw [normalizeURL, if_neg h0]
    by_cases hp : startsHttp (jsTrim url) = true
    · rw [hr, if_pos hp]
      rw [normalizeURL, jsTrim_idem url, if_neg h0, if_pos hp]
    · rw [hr, if_neg hp]
      rw [normalizeURL, jsTrim_append_https url h0,
        if_neg (by simp [List.append_eq_nil, h0]),
        if_pos (startsHttp_append (jsTrim url))]

/-- Concrete instance of the C9 theorem: a non-whitespace input gets a
scheme. -/
theorem normalizeURL_spec_witness :
    startsHttp (normalizeURL (' ' :: 'a' :: [])) = true :=
  (normalizeURL_spec (' ' :: 'a' :: [])).2.1 (by decide)

end Dashboard
